import Mathlib

/-!
Verification of the Excel-to-quiz conversion and publish pipeline.

The development shallowly embeds the serverless upload endpoint
(`convertExcelToQuiz`, `saveQuizToRepo` and the surrounding handler).
Text is represented as lists of Unicode code points (`List Nat`);
spreadsheet cells are a closed variant of text, number, or absent.
Remote-store interaction is represented by an explicit response oracle
plus a trace of the calls attempted, and thrown exceptions by `Except`.
-/

/-- Code points of a string literal. -/
def codes (s : String) : List Nat := s.data.map Char.toNat

/-- The whitespace class used by the runtime's `\s`, `trim` and friends:
tab..carriage-return, space, NBSP, Ogham space, the U+2000..U+200A range,
line/paragraph separators, narrow NBSP, math space, ideographic space, BOM. -/
def isJsWs (n : Nat) : Bool :=
  decide ((9 ≤ n ∧ n ≤ 13) ∨ n = 32 ∨ n = 160 ∨ n = 5760 ∨
    (8192 ≤ n ∧ n ≤ 8202) ∨ n = 8232 ∨ n = 8233 ∨ n = 8239 ∨
    n = 8287 ∨ n = 12288 ∨ n = 65279)

/-- `String.prototype.trim`: drop whitespace from both ends. -/
def trimCodes (l : List Nat) : List Nat :=
  ((l.dropWhile isJsWs).reverse.dropWhile isJsWs).reverse

/-- ASCII upper-casing, the canonicalisation used by case-insensitive
regex matching against an ASCII pattern. -/
def ciUpper (n : Nat) : Nat := if 97 ≤ n ∧ n ≤ 122 then n - 32 else n

/-- ASCII lower-casing.  `toLowerCase` is Unicode-aware in the runtime, but
every place the pipeline applies it the input is ASCII alphanumeric or a
hyphen, where this agrees with it. -/
def jsToLower (n : Nat) : Nat := if 65 ≤ n ∧ n ≤ 90 then n + 32 else n

/-- Case-insensitive "starts with" against an ASCII pattern. -/
def startsWithCI (s pat : List Nat) : Bool :=
  (s.take pat.length).map ciUpper == pat.map ciUpper

/-- Case-insensitive "ends with" against an ASCII pattern. -/
def endsWithCI (s pat : List Nat) : Bool :=
  (pat.length ≤ s.length) &&
    ((s.drop (s.length - pat.length)).map ciUpper == pat.map ciUpper)

/-- Decimal digits of a natural number, as code points
(`Number.prototype.toString` for non-negative integers). -/
def natToCodes (n : Nat) : List Nat := (Nat.toDigits 10 n).map Char.toNat

/-- `Number.prototype.toString` for integer-valued cells. -/
def intToCodes (i : Int) : List Nat :=
  if i < 0 then 45 :: natToCodes i.natAbs else natToCodes i.toNat

/-- A spreadsheet cell as handed to the converter: a string, a number, or
absent (`undefined`).  Mirrors the untyped row cells of `sheet_to_json`. -/
inductive Cell where
  | str : List Nat → Cell
  | num : Int → Cell
  | missing : Cell
deriving DecidableEq

/-- JS truthiness of a cell value: `undefined`, `""` and `0` are falsy. -/
def Cell.truthy : Cell → Bool
  | .str s => !s.isEmpty
  | .num n => n != 0
  | .missing => false

/-- `cell.toString()` for a defined cell (never reached on `missing`,
which every call site guards with truthiness or optional chaining). -/
def stringifyCell : Cell → List Nat
  | .str s => s
  | .num n => intToCodes n
  | .missing => []

/-- `cell?.toString().trim()`: `none` when the cell is absent. -/
def cellText : Cell → Option (List Nat)
  | .missing => none
  | c => some (trimCodes (stringifyCell c))

/-- `row[i]`: indexing past the end yields `undefined`. -/
def getc (row : List Cell) (i : Nat) : Cell := row.getD i Cell.missing

/-- `/^(question|answer|q|a)/i.test s`. -/
def headerMatch (s : List Nat) : Bool :=
  startsWithCI s (codes "question") || startsWithCI s (codes "answer") ||
    startsWithCI s (codes "q") || startsWithCI s (codes "a")

/-- `typeof cell === 'string' && /^(question|answer|q|a)/i.test(cell.trim())`. -/
def isHeaderCell : Cell → Bool
  | .str s => headerMatch (trimCodes s)
  | _ => false

/-- Starting row of data processing: 1 when row 0 looks like a header. -/
def startIdx (data : List (List Cell)) : Nat :=
  match data with
  | [] => 0
  | firstRow :: _ => if firstRow.any isHeaderCell then 1 else 0

/-- `row[2].toString().split(',').map(trim).filter(nonempty)`. -/
def splitAlts (c : Cell) : List (List Nat) :=
  (((stringifyCell c).splitOn 44).map trimCodes).filter (fun alt => decide (0 < alt.length))

/-- The `accept` field attached to a question from column C:
only a truthy cell is split, and only a non-empty result is attached. -/
def acceptOf (c : Cell) : Option (List (List Nat)) :=
  if c.truthy then
    let alternatives := splitAlts c
    if 0 < alternatives.length then some alternatives else none
  else none

/-- A question before its number is assigned. -/
structure RawQ where
  question_text : List Nat
  answer : List Nat
  accept : Option (List (List Nat))
deriving DecidableEq

/-- One iteration of the conversion loop on a row: `none` when the row is
skipped (empty row, both A and B falsy, or A/B empty after stringify-trim). -/
def rowQuestion (row : List Cell) : Option RawQ :=
  if row.length == 0 then none
  else if !(getc row 0).truthy && !(getc row 1).truthy then none
  else
    match cellText (getc row 0), cellText (getc row 1) with
    | some questionText, some answerText =>
      if questionText.isEmpty || answerText.isEmpty then none
      else some { question_text := questionText, answer := answerText,
                  accept := acceptOf (getc row 2) }
    | _, _ => none

/-- An emitted question. -/
structure Question where
  question_number : Nat
  question_text : List Nat
  answer : List Nat
  accept : Option (List (List Nat))
deriving DecidableEq

def mkQuestion (n : Nat) (r : RawQ) : Question :=
  { question_number := n, question_text := r.question_text,
    answer := r.answer, accept := r.accept }

/-- The `for` loop of `convertExcelToQuiz`: each kept row is pushed with
`question_number = questions.length + 1`. -/
def convLoop : List (List Cell) → List Question → List Question
  | [], questions => questions
  | row :: rest, questions =>
    match rowQuestion row with
    | none => convLoop rest questions
    | some rq => convLoop rest (questions ++ [mkQuestion (questions.length + 1) rq])

/-- The question list produced for an input matrix. -/
def convQuestions (data : List (List Cell)) : List Question :=
  convLoop (data.drop (startIdx data)) []

structure Player where
  player_number : Nat
  questions : List Question
deriving DecidableEq

structure Round where
  round_number : Nat
  round_name : List Nat
  players : List Player
deriving DecidableEq

structure Metadata where
  title : List Nat
  source : List Nat
  date : List Nat
  rounds : Nat
deriving DecidableEq

structure Quiz where
  metadata : Metadata
  rounds : List Round
deriving DecidableEq

/-- `convertExcelToQuiz(data, title)`; `today` stands for the current date
string used in the metadata. -/
def convertExcelToQuiz (data : List (List Cell)) (title today : List Nat) : Quiz :=
  { metadata := { title := title, source := codes "excel_upload_" ++ today,
                  date := today, rounds := 1 },
    rounds := [ { round_number := 1, round_name := title,
                  players := [ { player_number := 1, questions := convQuestions data } ] } ] }

/-- The single player's questions of a converter-produced document. -/
def firstPlayerQuestions (q : Quiz) : List Question :=
  ((q.rounds.headD ⟨0, [], []⟩).players.headD ⟨0, []⟩).questions

/-- Reference numbering: raw questions tagged `n+1, n+2, ...` by position. -/
def numberFrom (n : Nat) : List RawQ → List Question
  | [] => []
  | r :: rs => mkQuestion (n + 1) r :: numberFrom (n + 1) rs

/-- The character class `[a-z0-9\s-]` with the `i` flag: characters kept by
`title.replace(/[^a-z0-9\s-]/gi, '')`. -/
def keepChar (n : Nat) : Bool :=
  decide ((97 ≤ n ∧ n ≤ 122) ∨ (65 ≤ n ∧ n ≤ 90) ∨ (48 ≤ n ∧ n ≤ 57) ∨
    n = 45 ∨ isJsWs n = true)

/-- `replace(/\s+/g, '-')`: each maximal whitespace run becomes one hyphen.
The flag records whether the previous character was whitespace. -/
def collapseWsAux : Bool → List Nat → List Nat
  | _, [] => []
  | prevWs, c :: cs =>
    if isJsWs c then
      if prevWs then collapseWsAux true cs else 45 :: collapseWsAux true cs
    else c :: collapseWsAux false cs

/-- Filename derivation in `saveQuizToRepo`: strip characters outside
`[a-z0-9\s-]` (case-insensitive), collapse whitespace runs to single
hyphens, lowercase. -/
def deriveFilename (title : List Nat) : List Nat :=
  (collapseWsAux false (title.filter keepChar)).map jsToLower

/-- `` `public/data/quizzes/${filename}.json` ``. -/
def quizPathOf (title : List Nat) : List Nat :=
  codes "public/data/quizzes/" ++ deriveFilename title ++ codes ".json"

/-- `` `/data/quizzes/${filename}.json` ``, the index entry's `file`. -/
def indexFileOf (title : List Nat) : List Nat :=
  codes "/data/quizzes/" ++ deriveFilename title ++ codes ".json"

structure IndexEntry where
  name : List Nat
  file : List Nat
  description : List Nat
deriving DecidableEq

structure QuizIndex where
  quizzes : List IndexEntry
deriving DecidableEq

/-- `quizData.rounds.reduce(... round.players.reduce(... + questions.length))`. -/
def totalQuestionsOf (q : Quiz) : Nat :=
  q.rounds.foldl (fun total round =>
    total + round.players.foldl (fun roundTotal player =>
      roundTotal + player.questions.length) 0) 0

/-- The index entry built for the published quiz. -/
def mkIndexEntry (quizTitle : List Nat) (totalQuestions : Nat) : IndexEntry :=
  { name := quizTitle, file := indexFileOf quizTitle,
    description := codes "1 round, " ++ natToCodes totalQuestions ++ codes " questions" }

/-- `findIndex(q => q.file === path)` followed by replace-in-place or push. -/
def upsertIndex (quizzes : List IndexEntry) (e : IndexEntry) : List IndexEntry :=
  match quizzes.findIdx? (fun q => q.file == e.file) with
  | some i => quizzes.set i e
  | none => quizzes ++ [e]

/-- Environment configuration read by the handler and `saveQuizToRepo`.
`none` models an unset variable. -/
structure Env where
  GITHUB_TOKEN : Option (List Nat)
  GITHUB_OWNER : Option (List Nat)
  VERCEL_GIT_REPO_OWNER : Option (List Nat)
  GITHUB_REPO : Option (List Nat)
  VERCEL_GIT_REPO_SLUG : Option (List Nat)
  GITHUB_BRANCH : Option (List Nat)
deriving DecidableEq

/-- JS falsiness of an optional string: unset or empty. -/
def strFalsy : Option (List Nat) → Bool
  | none => true
  | some s => s.isEmpty

/-- `a || b` on optional strings: `a` unless it is unset or empty. -/
def jsOrStr (a b : Option (List Nat)) : Option (List Nat) :=
  match a with
  | some s => if s.isEmpty then b else some s
  | none => b

/-- `process.env.GITHUB_BRANCH || 'main'`. -/
def branchOf (env : Env) : List Nat :=
  match env.GITHUB_BRANCH with
  | some b => if b.isEmpty then codes "main" else b
  | none => codes "main"

/-- Identifies which remote-store API call was attempted. -/
inductive RemoteCall where
  | getRef
  | getCommit
  | getContent
  | createBlob
  | createTree
  | createCommit
  | updateRef
deriving DecidableEq

/-- Oracle of remote-store responses, one field per API call.  Shas,
error payloads and contents are abstract strings; blob contents are the
structured values being serialised. -/
structure Remote where
  getRef : List Nat → Except (List Nat) (List Nat)
  getCommit : List Nat → Except (List Nat) (List Nat)
  getContent : Except (List Nat) QuizIndex
  createQuizBlob : Quiz → Except (List Nat) (List Nat)
  createIndexBlob : QuizIndex → Except (List Nat) (List Nat)
  createTree : List Nat → List (List Nat × List Nat) → Except (List Nat) (List Nat)
  createCommit : List Nat → List Nat → List Nat → Except (List Nat) (List Nat)
  updateRef : List Nat → List Nat → Except (List Nat) Unit

inductive SaveErr where
  | notConfigured
  | remote : List Nat → SaveErr
deriving DecidableEq

structure SaveOk where
  quizPath : List Nat
  commitSha : List Nat
  quizUrl : List Nat
deriving DecidableEq

/-- `saveQuizToRepo(quizData, quizTitle)`: result (`Except` models a
thrown exception) together with the trace of remote calls attempted. -/
def saveQuizToRepo (env : Env) (remote : Remote) (quizData : Quiz)
    (quizTitle : List Nat) : Except SaveErr SaveOk × List RemoteCall :=
  let owner := jsOrStr env.GITHUB_OWNER env.VERCEL_GIT_REPO_OWNER
  let repo := jsOrStr env.GITHUB_REPO env.VERCEL_GIT_REPO_SLUG
  let branch := branchOf env
  if strFalsy owner || strFalsy repo then
    (.error .notConfigured, [])
  else
    let quizPath := quizPathOf quizTitle
    match remote.getRef branch with
    | .error e => (.error (.remote e), [.getRef])
    | .ok currentCommitSha =>
      match remote.getCommit currentCommitSha with
      | .error e => (.error (.remote e), [.getRef, .getCommit])
      | .ok currentTreeSha =>
        let quizIndex : QuizIndex :=
          match remote.getContent with
          | .error _ => { quizzes := [] }
          | .ok idx => idx
        let totalQuestions := totalQuestionsOf quizData
        let newIndex : QuizIndex :=
          { quizzes := upsertIndex quizIndex.quizzes (mkIndexEntry quizTitle totalQuestions) }
        match remote.createQuizBlob quizData, remote.createIndexBlob newIndex with
        | .error e, _ =>
          (.error (.remote e), [.getRef, .getCommit, .getContent, .createBlob, .createBlob])
        | .ok _, .error e =>
          (.error (.remote e), [.getRef, .getCommit, .getContent, .createBlob, .createBlob])
        | .ok quizBlobSha, .ok indexBlobSha =>
          match remote.createTree currentTreeSha
              [(quizPath, quizBlobSha), (codes "public/data/quiz-index.json", indexBlobSha)] with
          | .error e =>
            (.error (.remote e),
             [.getRef, .getCommit, .getContent, .createBlob, .createBlob, .createTree])
          | .ok newTreeSha =>
            match remote.createCommit (codes "Add quiz: " ++ quizTitle) newTreeSha currentCommitSha with
            | .error e =>
              (.error (.remote e),
               [.getRef, .getCommit, .getContent, .createBlob, .createBlob, .createTree, .createCommit])
            | .ok newCommitSha =>
              match remote.updateRef branch newCommitSha with
              | .error e =>
                (.error (.remote e),
                 [.getRef, .getCommit, .getContent, .createBlob, .createBlob, .createTree,
                  .createCommit, .updateRef])
              | .ok _ =>
                (.ok { quizPath := quizPath, commitSha := newCommitSha,
                       quizUrl := indexFileOf quizTitle },
                 [.getRef, .getCommit, .getContent, .createBlob, .createBlob, .createTree,
                  .createCommit, .updateRef])

/-- Shape of the handler's JSON success response. -/
structure UploadResponse where
  status : Nat
  success : Bool
  quiz : Quiz
  saved : Bool
  quizPath : Option (List Nat)
  message : List Nat
deriving DecidableEq

def savedMessage : List Nat := codes "Quiz saved to repository successfully"

def parsedMessage : List Nat := codes "Quiz parsed successfully (download to save manually)"

/-- The publish phase of the upload handler: skipped when the token is
falsy; a thrown `saveQuizToRepo` is caught and the response degrades to
`saved:false`, `quizPath:null`. -/
def handlerPublish (env : Env) (remote : Remote) (quizData : Quiz)
    (quizTitle : List Nat) : UploadResponse × List RemoteCall :=
  if strFalsy env.GITHUB_TOKEN then
    ({ status := 200, success := true, quiz := quizData, saved := false,
       quizPath := none, message := parsedMessage }, [])
  else
    match saveQuizToRepo env remote quizData quizTitle with
    | (.ok saveResult, calls) =>
      ({ status := 200, success := true, quiz := quizData, saved := true,
         quizPath := some saveResult.quizPath, message := savedMessage }, calls)
    | (.error _, calls) =>
      ({ status := 200, success := true, quiz := quizData, saved := false,
         quizPath := none, message := parsedMessage }, calls)

/-- Drop the last `n` elements. -/
def dropLastN (l : List Nat) (n : Nat) : List Nat := l.take (l.length - n)

/-- `originalFilename.replace(/\.(xlsx?|csv)$/i, '')`: remove one trailing
`.xlsx`, `.xls` or `.csv` extension, case-insensitively. -/
def stripExt (l : List Nat) : List Nat :=
  if endsWithCI l (codes ".xlsx") then dropLastN l 5
  else if endsWithCI l (codes ".xls") then dropLastN l 4
  else if endsWithCI l (codes ".csv") then dropLastN l 4
  else l

/-- `a || b` where `a` is an optional string and `b` is a fallback string. -/
def jsOrS (a : Option (List Nat)) (b : List Nat) : List Nat :=
  match a with
  | some s => if s.isEmpty then b else s
  | none => b

/-- `fields.title?.[0] || uploadedFile.originalFilename?.replace(/\.(xlsx?|csv)$/i, '') || 'Untitled Quiz'`. -/
def quizTitleOf (titleField originalFilename : Option (List Nat)) : List Nat :=
  jsOrS titleField (jsOrS (originalFilename.map stripExt) (codes "Untitled Quiz"))

/-- Column value empty or absent after stringify-and-trim. -/
def emptyCellText (c : Cell) : Bool :=
  match cellText c with
  | none => true
  | some s => s.isEmpty

/-- Row whose column A or column B is empty/absent after stringify-and-trim. -/
def emptyAB (row : List Cell) : Bool :=
  emptyCellText (getc row 0) || emptyCellText (getc row 1)

/-- A remote oracle whose every call succeeds. -/
def okRemote : Remote :=
  { getRef := fun _ => .ok (codes "sha0"),
    getCommit := fun _ => .ok (codes "tree0"),
    getContent := .ok ⟨[]⟩,
    createQuizBlob := fun _ => .ok (codes "blobQ"),
    createIndexBlob := fun _ => .ok (codes "blobI"),
    createTree := fun _ _ => .ok (codes "tree1"),
    createCommit := fun _ _ _ => .ok (codes "sha1"),
    updateRef := fun _ _ => .ok () }

/-- A remote oracle whose first call (resolving the branch ref) throws. -/
def failRefRemote : Remote :=
  { okRemote with getRef := fun _ => .error (codes "boom") }

/-- Fully configured environment. -/
def fullEnv : Env :=
  ⟨some (codes "tok"), some (codes "own"), none, some (codes "repo"), none, none⟩

/-- Environment with no credential but owner/repo configured. -/
def noTokenEnv : Env :=
  ⟨none, some (codes "own"), none, some (codes "repo"), none, none⟩

/-- Environment with a credential but no owner configured. -/
def noOwnerEnv : Env :=
  ⟨some (codes "tok"), none, none, some (codes "repo"), none, none⟩

/-- A small converted document used by the concrete witnesses. -/
def demoQuiz : Quiz :=
  convertExcelToQuiz [[Cell.str (codes "X"), Cell.str (codes "B")]]
    (codes "T") (codes "2024-01-01")

theorem rowQuestion_none_of_emptyAB (row : List Cell) (h : emptyAB row = true) :
    rowQuestion row = none := by
  unfold rowQuestion
  split
  · rfl
  split
  · rfl
  rcases h0 : cellText (getc row 0) with _ | s0
  · simp [h0]
  rcases h1 : cellText (getc row 1) with _ | s1
  · simp [h0, h1]
  simp only [emptyAB, emptyCellText, h0, h1, Bool.or_eq_true] at h
  simp only [List.isEmpty_iff] at h
  simp [h0, h1]
  tauto

theorem convLoop_eq (data : List (List Cell)) :
    ∀ acc : List Question,
      convLoop data acc = acc ++ numberFrom acc.length (data.filterMap rowQuestion) := by
  induction data with
  | nil => intro acc; simp [convLoop, numberFrom]
  | cons row rest ih =>
    intro acc
    cases h : rowQuestion row with
    | none => simp [convLoop, h, ih, List.filterMap_cons]
    | some rq =>
      simp only [convLoop, h, ih, List.filterMap_cons, List.length_append,
        List.length_singleton, numberFrom, List.append_assoc, List.singleton_append]

theorem length_numberFrom (l : List RawQ) : ∀ n, (numberFrom n l).length = l.length := by
  induction l with
  | nil => intro n; rfl
  | cons r rs ih => intro n; simp [numberFrom, ih]

theorem map_num_numberFrom (l : List RawQ) :
    ∀ n, (numberFrom n l).map Question.question_number = List.range' (n + 1) l.length := by
  induction l with
  | nil => intro n; simp [numberFrom]
  | cons r rs ih =>
    intro n
    simp [numberFrom, mkQuestion, ih, List.range'_succ]

theorem length_filterMap_eq_length_filter {α β : Type} (f : α → Option β) :
    ∀ l : List α, (l.filterMap f).length = (l.filter (fun a => (f a).isSome)).length := by
  intro l
  induction l with
  | nil => rfl
  | cons a l ih => cases h : f a <;> simp [List.filterMap_cons, List.filter_cons, h, ih]

theorem firstPlayerQuestions_convert (data : List (List Cell)) (title today : List Nat) :
    firstPlayerQuestions (convertExcelToQuiz data title today) = convQuestions data := rfl

/-- C1: a data row whose column A or B is empty/absent after
stringify-and-trim is skipped; the output is exactly the questions of the
non-skipped rows, numbered by output position; the `question_number`
values are `1, 2, ...`, dense and strictly increasing. -/
theorem converter_skips_empty_and_numbers_dense
    (data : List (List Cell)) (title today : List Nat) :
    (∀ row ∈ data, emptyAB row = true → rowQuestion row = none) ∧
    firstPlayerQuestions (convertExcelToQuiz data title today) =
      numberFrom 0 ((data.drop (startIdx data)).filterMap rowQuestion) ∧
    (firstPlayerQuestions (convertExcelToQuiz data title today)).map Question.question_number =
      List.range' 1
        (firstPlayerQuestions (convertExcelToQuiz data title today)).length := by
  refine ⟨fun row _ h => rowQuestion_none_of_emptyAB row h, ?_, ?_⟩
  · rw [firstPlayerQuestions_convert, convQuestions, convLoop_eq]
    simp
  · rw [firstPlayerQuestions_convert, convQuestions, convLoop_eq]
    simp [map_num_numberFrom, length_numberFrom]

/-- Witness for C1 at a concrete input: a row whose column A trims to
empty is skipped, and the two remaining valid rows are numbered 1, 2. -/
theorem converter_skips_empty_and_numbers_dense_witness :
    rowQuestion [Cell.str (codes "   "), Cell.str (codes "B")] = none ∧
    (firstPlayerQuestions (convertExcelToQuiz
        [[Cell.str (codes "X1"), Cell.str (codes "B1")],
         [Cell.str (codes "   "), Cell.str (codes "B")],
         [Cell.str (codes "X2"), Cell.str (codes "B2")]] (codes "T") (codes "D"))).map
      Question.question_number = [1, 2] :=
  ⟨(converter_skips_empty_and_numbers_dense
      [[Cell.str (codes "   "), Cell.str (codes "B")]] [] []).1
      _ (by simp) (by decide),
   by
    have h := (converter_skips_empty_and_numbers_dense
      [[Cell.str (codes "X1"), Cell.str (codes "B1")],
       [Cell.str (codes "   "), Cell.str (codes "B")],
       [Cell.str (codes "X2"), Cell.str (codes "B2")]] (codes "T") (codes "D")).2.2
    rw [h]
    decide⟩

/-- C2: for a non-empty matrix, row 0 is treated as a header (data
processing begins at row 1) exactly when some cell of row 0 is a string
whose trimmed value matches `/^(question|answer|q|a)/i`; otherwise
processing starts at row 0 and no row is dropped. -/
theorem header_detection_iff (r0 : List Cell) (rest : List (List Cell)) :
    (startIdx (r0 :: rest) = 1 ↔ ∃ c ∈ r0, isHeaderCell c = true) ∧
    ((∃ c ∈ r0, isHeaderCell c = true) → convQuestions (r0 :: rest) = convLoop rest []) ∧
    ((¬ ∃ c ∈ r0, isHeaderCell c = true) →
      startIdx (r0 :: rest) = 0 ∧ convQuestions (r0 :: rest) = convLoop (r0 :: rest) []) := by
  have hany : r0.any isHeaderCell = true ↔ ∃ c ∈ r0, isHeaderCell c = true :=
    List.any_eq_true
  by_cases h : r0.any isHeaderCell = true
  · refine ⟨by simp [startIdx, h, hany.mp h], fun _ => ?_, fun hn => absurd (hany.mp h) hn⟩
    simp [convQuestions, startIdx, h]
  · have hn : ¬ ∃ c ∈ r0, isHeaderCell c = true := fun hc => h (hany.mpr hc)
    refine ⟨by simp [startIdx, h, hn], fun hc => absurd hc hn, fun _ => ?_⟩
    constructor
    · simp [startIdx, h]
    · simp [convQuestions, startIdx, h]

/-- Witness for C2 at concrete inputs: a row-0 cell `"Question"` triggers
header detection, while a matrix whose row 0 is `["X1", "B1"]` does not. -/
theorem header_detection_iff_witness :
    startIdx [[Cell.str (codes "Question"), Cell.str (codes "Answer")],
      [Cell.str (codes "Capital of France?"), Cell.str (codes "Paris")]] = 1 ∧
    startIdx [[Cell.str (codes "X1"), Cell.str (codes "B1")]] = 0 :=
  ⟨(header_detection_iff [Cell.str (codes "Question"), Cell.str (codes "Answer")]
      [[Cell.str (codes "Capital of France?"), Cell.str (codes "Paris")]]).1.mpr
      ⟨Cell.str (codes "Question"), by simp, by decide⟩,
   ((header_detection_iff [Cell.str (codes "X1"), Cell.str (codes "B1")] []).2.2
      (by decide)).1⟩

/-- C6: the Publisher's `totalQuestions` computation over the Converter's
output equals the number of valid (non-skipped) rows of the input. -/
theorem totalQuestions_eq_valid_rows (data : List (List Cell)) (title today : List Nat) :
    totalQuestionsOf (convertExcelToQuiz data title today) =
      ((data.drop (startIdx data)).filter (fun row => (rowQuestion row).isSome)).length := by
  have h1 : totalQuestionsOf (convertExcelToQuiz data title today) =
      (convQuestions data).length := by
    simp [totalQuestionsOf, convertExcelToQuiz]
  rw [h1, convQuestions, convLoop_eq]
  simp [length_numberFrom, length_filterMap_eq_length_filter]

theorem rowQuestion_accept (row : List Cell) (rq : RawQ)
    (h : rowQuestion row = some rq) : rq.accept = acceptOf (getc row 2) := by
  unfold rowQuestion at h
  split at h
  · simp at h
  split at h
  · simp at h
  split at h
  · split at h
    · simp at h
    · rw [Option.some_inj] at h
      rw [← h]
  · simp at h

theorem acceptOf_spec (c : Cell) :
    ((acceptOf c).isSome ↔ (c.truthy = true ∧ splitAlts c ≠ [])) ∧
    (∀ l, acceptOf c = some l → l = splitAlts c ∧ l ≠ []) := by
  unfold acceptOf
  by_cases ht : c.truthy
  · by_cases hl : 0 < (splitAlts c).length
    · have hne : splitAlts c ≠ [] := by
        intro he
        rw [he] at hl
        simp at hl
      simp [ht, hl, hne]
    · have he : splitAlts c = [] := by
        cases hsp : splitAlts c with
        | nil => rfl
        | cons a l => rw [hsp] at hl; simp at hl
      simp [ht, hl, he]
  · simp [ht]

/-- Counterexample to C3: a kept row whose column-C cell is the number 0
is *present*, and its stringified value `"0"` splits/trims/filters to the
non-empty sequence `["0"]`, yet the emitted question carries no `accept`
field — the code guards column C with JS truthiness, not presence. -/
theorem accept_presence_counterexample :
    rowQuestion [Cell.str (codes "X"), Cell.str (codes "B"), Cell.num 0] =
      some ⟨codes "X", codes "B", none⟩ ∧
    getc [Cell.str (codes "X"), Cell.str (codes "B"), Cell.num 0] 2 = Cell.num 0 ∧
    splitAlts (Cell.num 0) = [codes "0"] ∧
    splitAlts (Cell.num 0) ≠ [] := by decide

/-- C3 (amended): for every kept row, the emitted question carries an
`accept` field iff the column-C cell is truthy (present and neither the
empty string nor the number 0) *and* the split/trim/filter of its
stringified value is non-empty; a carried `accept` equals that sequence
and is never empty. -/
theorem accept_iff_truthy_and_nonempty (row : List Cell) (rq : RawQ)
    (h : rowQuestion row = some rq) :
    (rq.accept.isSome ↔
      ((getc row 2).truthy = true ∧ splitAlts (getc row 2) ≠ [])) ∧
    (∀ l, rq.accept = some l → l = splitAlts (getc row 2) ∧ l ≠ []) := by
  rw [rowQuestion_accept row rq h]
  exact acceptOf_spec (getc row 2)

/-- Witness for C3 (amended) at a concrete kept row with column C
`"x, y"`: `accept` is present and equals `["x", "y"]`. -/
theorem accept_iff_truthy_and_nonempty_witness :
    ((⟨codes "X", codes "B", some [codes "x", codes "y"]⟩ : RawQ).accept.isSome ↔
      ((getc [Cell.str (codes "X"), Cell.str (codes "B"), Cell.str (codes "x, y")] 2).truthy = true ∧
        splitAlts (getc [Cell.str (codes "X"), Cell.str (codes "B"), Cell.str (codes "x, y")] 2) ≠ [])) ∧
    (∀ l, (⟨codes "X", codes "B", some [codes "x", codes "y"]⟩ : RawQ).accept = some l →
      l = splitAlts (getc [Cell.str (codes "X"), Cell.str (codes "B"), Cell.str (codes "x, y")] 2) ∧
      l ≠ []) :=
  accept_iff_truthy_and_nonempty
    [Cell.str (codes "X"), Cell.str (codes "B"), Cell.str (codes "x, y")]
    ⟨codes "X", codes "B", some [codes "x", codes "y"]⟩ (by decide)

theorem mem_collapseWsAux {c : Nat} :
    ∀ (l : List Nat) (b : Bool),
      c ∈ collapseWsAux b l → c = 45 ∨ (c ∈ l ∧ isJsWs c = false) := by
  intro l
  induction l with
  | nil => intro b h; simp [collapseWsAux] at h
  | cons a l ih =>
    intro b h
    by_cases ha : isJsWs a
    · rw [collapseWsAux, if_pos ha] at h
      cases b with
      | true =>
        rcases ih true h with h45 | ⟨hm, hw⟩
        · exact Or.inl h45
        · exact Or.inr ⟨List.mem_cons_of_mem a hm, hw⟩
      | false =>
        rcases List.mem_cons.mp h with rfl | h'
        · exact Or.inl rfl
        · rcases ih true h' with h45 | ⟨hm, hw⟩
          · exact Or.inl h45
          · exact Or.inr ⟨List.mem_cons_of_mem a hm, hw⟩
    · rw [collapseWsAux, if_neg ha] at h
      rcases List.mem_cons.mp h with rfl | h'
      · exact Or.inr ⟨List.mem_cons_self _ _, by simpa using ha⟩
      · rcases ih false h' with h45 | ⟨hm, hw⟩
        · exact Or.inl h45
        · exact Or.inr ⟨List.mem_cons_of_mem a hm, hw⟩

theorem collapseWsAux_eq_self :
    ∀ l : List Nat, (∀ c ∈ l, isJsWs c = false) → ∀ b, collapseWsAux b l = l := by
  intro l
  induction l with
  | nil => intro _ b; rfl
  | cons a l ih =>
    intro h b
    have ha : isJsWs a = false := h a (List.mem_cons_self a l)
    rw [collapseWsAux, if_neg (by simp [ha])]
    rw [ih (fun c hc => h c (List.mem_cons_of_mem a hc)) false]

theorem map_eq_self_of {α : Type} (f : α → α) :
    ∀ l : List α, (∀ c ∈ l, f c = c) → l.map f = l := by
  intro l
  induction l with
  | nil => intro _; rfl
  | cons a l ih =>
    intro h
    simp [h a (by simp), ih (fun c hc => h c (by simp [hc]))]

/-- Every character of a derived filename is a hyphen, a lowercase ASCII
letter, or an ASCII digit. -/
theorem mem_deriveFilename {c : Nat} (t : List Nat) (h : c ∈ deriveFilename t) :
    c = 45 ∨ (97 ≤ c ∧ c ≤ 122) ∨ (48 ≤ c ∧ c ≤ 57) := by
  unfold deriveFilename at h
  rcases List.mem_map.mp h with ⟨d, hd, rfl⟩
  rcases mem_collapseWsAux _ _ hd with h45 | ⟨hm, hw⟩
  · subst h45
    left
    norm_num [jsToLower]
  · have hk : keepChar d = true := List.of_mem_filter hm
    simp only [keepChar, decide_eq_true_eq] at hk
    simp only [isJsWs, decide_eq_true_eq] at hk
    simp only [isJsWs, decide_eq_false_iff_not] at hw
    unfold jsToLower
    split <;> omega

theorem deriveFilename_idem (t : List Nat) :
    deriveFilename (deriveFilename t) = deriveFilename t := by
  have h1 : (deriveFilename t).filter keepChar = deriveFilename t :=
    List.filter_eq_self.mpr (fun c hc => by
      have := mem_deriveFilename t hc
      simp only [keepChar, decide_eq_true_eq, isJsWs]
      omega)
  have h2 : collapseWsAux false (deriveFilename t) = deriveFilename t :=
    collapseWsAux_eq_self _ (fun c hc => by
      have := mem_deriveFilename t hc
      simp only [isJsWs, decide_eq_false_iff_not]
      omega) false
  have h3 : (deriveFilename t).map jsToLower = deriveFilename t :=
    map_eq_self_of _ _ (fun c hc => by
      have := mem_deriveFilename t hc
      simp only [jsToLower]
      rw [if_neg (by omega)])
  calc deriveFilename (deriveFilename t)
      = (collapseWsAux false ((deriveFilename t).filter keepChar)).map jsToLower := rfl
    _ = (collapseWsAux false (deriveFilename t)).map jsToLower := by rw [h1]
    _ = (deriveFilename t).map jsToLower := by rw [h2]
    _ = deriveFilename t := h3

/-- Counterexample to C4's example: `"Café Quiz!"` derives to
`"caf-quiz"` (the accented character is stripped outright), not
`"cafe-quiz"`, so it does not collide with `"Cafe Quiz"`. -/
theorem cafe_quiz_counterexample :
    deriveFilename (codes "Café Quiz!") = codes "caf-quiz" ∧
    deriveFilename (codes "Café Quiz!") ≠ codes "cafe-quiz" := by decide

/-- C4 (amended): filename derivation is deterministic and idempotent;
`"Café Quiz!"` derives to `"caf-quiz"` while `"Cafe Quiz"` derives to
`"cafe-quiz"`. -/
theorem deriveFilename_det_idem (t : List Nat) :
    deriveFilename t = deriveFilename t ∧
    deriveFilename (deriveFilename t) = deriveFilename t ∧
    deriveFilename (codes "Café Quiz!") = codes "caf-quiz" ∧
    deriveFilename (codes "Cafe Quiz") = codes "cafe-quiz" :=
  ⟨rfl, deriveFilename_idem t, by decide, by decide⟩

/-- C5: upserting the new entry into the index replaces in place (same
length, at the position of the entry with the same `file`) when the target
file already appears, and appends at the end otherwise. -/
theorem upsert_replaces_or_appends (quizzes : List IndexEntry)
    (quizTitle : List Nat) (totalQuestions : Nat) :
    ((∃ q ∈ quizzes, q.file = (mkIndexEntry quizTitle totalQuestions).file) →
      (upsertIndex quizzes (mkIndexEntry quizTitle totalQuestions)).length = quizzes.length ∧
      ∃ i, ∃ h : i < quizzes.length,
        (quizzes.get ⟨i, h⟩).file = (mkIndexEntry quizTitle totalQuestions).file ∧
        upsertIndex quizzes (mkIndexEntry quizTitle totalQuestions) =
          quizzes.set i (mkIndexEntry quizTitle totalQuestions)) ∧
    ((¬ ∃ q ∈ quizzes, q.file = (mkIndexEntry quizTitle totalQuestions).file) →
      upsertIndex quizzes (mkIndexEntry quizTitle totalQuestions) =
        quizzes ++ [mkIndexEntry quizTitle totalQuestions]) := by
  constructor
  · intro hex
    have hne : quizzes.findIdx?
        (fun q => q.file == (mkIndexEntry quizTitle totalQuestions).file) ≠ none := by
      intro hnone
      rw [List.findIdx?_eq_none_iff] at hnone
      obtain ⟨q, hq, hf⟩ := hex
      have := hnone q hq
      rw [hf] at this
      simp at this
    obtain ⟨i, hi⟩ := Option.ne_none_iff_exists'.mp hne
    obtain ⟨hlt, hp, _⟩ := List.findIdx?_eq_some_iff_getElem.mp hi
    refine ⟨?_, i, hlt, ?_, ?_⟩
    · rw [upsertIndex, hi]
      exact List.length_set quizzes i _
    · simpa [List.get_eq_getElem] using hp
    · rw [upsertIndex, hi]
  · intro hnone
    have hn : quizzes.findIdx?
        (fun q => q.file == (mkIndexEntry quizTitle totalQuestions).file) = none := by
      rw [List.findIdx?_eq_none_iff]
      intro x hx
      cases hpx : (x.file == (mkIndexEntry quizTitle totalQuestions).file) with
      | true => exact absurd ⟨x, hx, beq_iff_eq.mp hpx⟩ hnone
      | false => rfl
    rw [upsertIndex, hn]

/-- Witness for C5 at a concrete index: publishing `"Demo"` (file
`/data/quizzes/demo.json`) over an index already holding that file keeps
the length at 1; over an index without it, the entry is appended. -/
theorem upsert_replaces_or_appends_witness :
    (upsertIndex [⟨codes "Other", codes "/data/quizzes/demo.json", codes "d"⟩]
        (mkIndexEntry (codes "Demo") 2)).length = 1 ∧
    upsertIndex [⟨codes "Other", codes "/data/quizzes/misc.json", codes "d"⟩]
        (mkIndexEntry (codes "Demo") 2) =
      [⟨codes "Other", codes "/data/quizzes/misc.json", codes "d"⟩,
       mkIndexEntry (codes "Demo") 2] :=
  ⟨((upsert_replaces_or_appends
      [⟨codes "Other", codes "/data/quizzes/demo.json", codes "d"⟩] (codes "Demo") 2).1
      ⟨⟨codes "Other", codes "/data/quizzes/demo.json", codes "d"⟩, by decide, by decide⟩).1,
   (upsert_replaces_or_appends
      [⟨codes "Other", codes "/data/quizzes/misc.json", codes "d"⟩] (codes "Demo") 2).2
      (by decide)⟩

/-- C7: whenever `saveQuizToRepo` throws (at any step), the handler still
responds 200 with `success:true`, the full converted document,
`saved:false` and `quizPath:null`. -/
theorem publish_failure_degrades_response (env : Env) (remote : Remote)
    (quizData : Quiz) (quizTitle : List Nat) (e : SaveErr) (calls : List RemoteCall)
    (h : saveQuizToRepo env remote quizData quizTitle = (.error e, calls)) :
    (handlerPublish env remote quizData quizTitle).1.status = 200 ∧
    (handlerPublish env remote quizData quizTitle).1.success = true ∧
    (handlerPublish env remote quizData quizTitle).1.quiz = quizData ∧
    (handlerPublish env remote quizData quizTitle).1.saved = false ∧
    (handlerPublish env remote quizData quizTitle).1.quizPath = none := by
  unfold handlerPublish
  by_cases ht : strFalsy env.GITHUB_TOKEN
  · simp [ht]
  · simp [ht, h]

/-- Witness for C7: with a configured token and a remote whose ref
resolution throws, the response degrades as stated. -/
theorem publish_failure_degrades_response_witness :
    (handlerPublish fullEnv failRefRemote demoQuiz (codes "T")).1.status = 200 ∧
    (handlerPublish fullEnv failRefRemote demoQuiz (codes "T")).1.success = true ∧
    (handlerPublish fullEnv failRefRemote demoQuiz (codes "T")).1.quiz = demoQuiz ∧
    (handlerPublish fullEnv failRefRemote demoQuiz (codes "T")).1.saved = false ∧
    (handlerPublish fullEnv failRefRemote demoQuiz (codes "T")).1.quizPath = none :=
  publish_failure_degrades_response fullEnv failRefRemote demoQuiz (codes "T")
    (.remote (codes "boom")) [.getRef] rfl

/-- C8: with owner or repository unconfigured (after the `||` fallbacks),
`saveQuizToRepo` raises the configuration error with an empty remote-call
trace (before any remote call); with only the token absent, the handler
attempts no publish at all (empty trace) and returns the converted
document with `saved:false`. -/
theorem config_and_token_guards (env : Env) (remote : Remote)
    (quizData : Quiz) (quizTitle : List Nat) :
    ((strFalsy (jsOrStr env.GITHUB_OWNER env.VERCEL_GIT_REPO_OWNER) = true ∨
      strFalsy (jsOrStr env.GITHUB_REPO env.VERCEL_GIT_REPO_SLUG) = true) →
      saveQuizToRepo env remote quizData quizTitle = (.error .notConfigured, [])) ∧
    (strFalsy env.GITHUB_TOKEN = true →
      handlerPublish env remote quizData quizTitle =
        ({ status := 200, success := true, quiz := quizData, saved := false,
           quizPath := none, message := parsedMessage }, [])) := by
  constructor
  · intro h
    have hc : (strFalsy (jsOrStr env.GITHUB_OWNER env.VERCEL_GIT_REPO_OWNER) ||
        strFalsy (jsOrStr env.GITHUB_REPO env.VERCEL_GIT_REPO_SLUG)) = true := by
      rcases h with h | h <;> simp [h]
    unfold saveQuizToRepo
    dsimp only
    rw [hc]
    rfl
  · intro h
    unfold handlerPublish
    rw [h]
    rfl

/-- Witness for C8: a missing owner yields the immediate configuration
error with no remote calls; a missing token skips publishing entirely. -/
theorem config_and_token_guards_witness :
    saveQuizToRepo noOwnerEnv okRemote demoQuiz (codes "T") = (.error .notConfigured, []) ∧
    handlerPublish noTokenEnv okRemote demoQuiz (codes "T") =
      ({ status := 200, success := true, quiz := demoQuiz, saved := false,
         quizPath := none, message := parsedMessage }, []) :=
  ⟨(config_and_token_guards noOwnerEnv okRemote demoQuiz (codes "T")).1 (Or.inl rfl),
   (config_and_token_guards noTokenEnv okRemote demoQuiz (codes "T")).2 rfl⟩

/-- C9: a title with no ASCII letters, digits, whitespace or hyphens
derives the empty filename; the Publisher then targets
`public/data/quizzes/.json`, the index entry's `file` is
`/data/quizzes/.json`, and no check rejects the empty filename — with
owner/repo configured the remote sequence is still attempted. -/
theorem empty_filename_accepted (t : List Nat) (h : ∀ c ∈ t, keepChar c = false) :
    deriveFilename t = [] ∧
    quizPathOf t = codes "public/data/quizzes/.json" ∧
    indexFileOf t = codes "/data/quizzes/.json" ∧
    (∀ tq, (mkIndexEntry t tq).file = codes "/data/quizzes/.json") ∧
    (∀ (env : Env) (remote : Remote) (quizData : Quiz),
      strFalsy (jsOrStr env.GITHUB_OWNER env.VERCEL_GIT_REPO_OWNER) = false →
      strFalsy (jsOrStr env.GITHUB_REPO env.VERCEL_GIT_REPO_SLUG) = false →
      (saveQuizToRepo env remote quizData t).2 ≠ []) := by
  have hf : t.filter keepChar = [] := by
    rw [List.filter_eq_nil_iff]
    intro c hc
    simp [h c hc]
  have hd : deriveFilename t = [] := by
    rw [deriveFilename, hf]
    rfl
  refine ⟨hd, ?_, ?_, ?_, ?_⟩
  · rw [quizPathOf, hd]
    decide
  · rw [indexFileOf, hd]
    decide
  · intro tq
    rw [mkIndexEntry]
    simp only [indexFileOf, hd]
    decide
  · intro env remote quizData ho hr
    unfold saveQuizToRepo
    dsimp only
    rw [ho, hr, if_neg (by decide)]
    repeat' split
    all_goals simp

/-- Witness for C9 at title `"???"` with a configured environment. -/
theorem empty_filename_accepted_witness :
    deriveFilename (codes "???") = [] ∧
    quizPathOf (codes "???") = codes "public/data/quizzes/.json" ∧
    indexFileOf (codes "???") = codes "/data/quizzes/.json" ∧
    (saveQuizToRepo fullEnv okRemote demoQuiz (codes "???")).2 ≠ [] := by
  have h := empty_filename_accepted (codes "???") (by decide)
  exact ⟨h.1, h.2.1, h.2.2.1, h.2.2.2.2 fullEnv okRemote demoQuiz rfl rfl⟩

/-- Counterexample to C10: with the title field absent and original
filename `".xlsx"`, stripping the extension leaves the empty string,
which is falsy, so the code falls through to `"Untitled Quiz"` instead of
using the stripped filename. -/
theorem default_title_counterexample :
    quizTitleOf none (some (codes ".xlsx")) = codes "Untitled Quiz" ∧
    stripExt (codes ".xlsx") = [] ∧
    codes "Untitled Quiz" ≠ stripExt (codes ".xlsx") := by decide

/-- C10 (amended): with the title field absent, the title is the original
filename with one trailing `.xlsx`/`.xls`/`.csv` stripped
case-insensitively, unless that result is empty, in which case (as when
the filename is absent) it is `"Untitled Quiz"`. -/
theorem default_title_amended (originalFilename : List Nat) :
    quizTitleOf none (some originalFilename) =
      (if stripExt originalFilename = [] then codes "Untitled Quiz"
       else stripExt originalFilename) ∧
    quizTitleOf none none = codes "Untitled Quiz" := by
  constructor
  · cases h : stripExt originalFilename <;> simp [quizTitleOf, jsOrS, h]
  · rfl
